import Mathlib

/-!
Verification of the forum authentication security state machine, password
reset flow and real-time chat broadcast model, shallowly embedded from the
repository sources:

* `backend/routes/auth.js` — login lockout machine (the login route POST /login,
  `handleFailedLogin`), password reset routes (`/forgot-password`,
  `/reset-password`).
* `backend/database.js` — table shapes (`users`, `password_reset_tokens`,
  `sessions`, `chat_messages`) including their uniqueness constraints.
* `backend/server.js` — Socket.IO chat handlers (`chat-message`, `disconnect`).

Timestamps are modelled as natural numbers of milliseconds; the SQLite rows
become Lean structures; each route handler becomes a pure function from the
database value (and its request inputs) to the new database value plus its
observable outcome.
-/

/-- A row of the `users` table (`backend/database.js`).  `profile_color` and
`profile_avatar` are nullable in the schema, `display_name` is NOT NULL.
`lockout_until` / `last_login` are nullable DATETIME columns, modelled as
`Option Nat` milliseconds. -/
structure UserRow where
  id : Nat
  username : String
  passwordHash : String
  email : String
  displayName : String
  profileColor : Option String
  profileAvatar : Option String
  failedLoginAttempts : Nat
  isLocked : Bool
  lockoutUntil : Option Nat
  lastLogin : Option Nat
deriving DecidableEq, Repr

/-- Fifteen minutes in milliseconds: `15 * 60 * 1000` in `handleFailedLogin`. -/
def lockoutDurationMs : Nat := 15 * 60 * 1000

/-- The outcome of a login attempt as observable in the HTTP redirect of
the login route. -/
inductive LoginOutcome where
  | lockedOut (remainingMinutes : Nat)
  | rejected
  | success
deriving DecidableEq, Repr

/-- Function `handleFailedLogin` (`routes/auth.js`): increment the failure counter;
if the updated counter has reached 5, lock the account until `now + 15min`
and log `account_locked_after_attempts`, otherwise log `invalid_password`.
Returns the updated user row and the logged failure reason. -/
def handleFailedLogin (u : UserRow) (now : Nat) : UserRow × String :=
  let u1 := { u with failedLoginAttempts := u.failedLoginAttempts + 1 }
  if 5 ≤ u1.failedLoginAttempts then
    ({ u1 with
        isLocked := true
        lockoutUntil := some (now + lockoutDurationMs) },
      "account_locked_after_attempts")
  else
    (u1, "invalid_password")

/-- The credential-evaluation tail of the login route, reached once
any lockout has been dealt with: on a match, reset the counter, clear the
lock fields, stamp `last_login` and log `success`; otherwise run
`handleFailedLogin`. -/
def loginActive (u : UserRow) (now : Nat) (passwordMatch : Bool) :
    UserRow × LoginOutcome × String :=
  if passwordMatch then
    ({ u with
        failedLoginAttempts := 0
        isLocked := false
        lockoutUntil := none
        lastLogin := some now }, LoginOutcome.success, "success")
  else
    let r := handleFailedLogin u now
    (r.1, LoginOutcome.rejected, r.2)

/-- One login attempt for a known user (the POST /login route): when the
row is locked and carries a lockout timestamp still in the future, reject
with `Math.ceil` of the remaining minutes and log `account_locked`; when the
lockout has expired, clear the lock fields and zero the counter before the
credential check; otherwise go straight to the credential check.  Returns
the updated row, the outcome, and the failure reason written to
`login_attempts`. -/
def loginStep (u : UserRow) (now : Nat) (passwordMatch : Bool) :
    UserRow × LoginOutcome × String :=
  match u.isLocked, u.lockoutUntil with
  | true, some lockoutEnd =>
      if now < lockoutEnd then
        (u, LoginOutcome.lockedOut ((lockoutEnd - now + 59999) / 60000),
          "account_locked")
      else
        loginActive
          { u with
            isLocked := false
            lockoutUntil := none
            failedLoginAttempts := 0 } now passwordMatch
  | _, _ => loginActive u now passwordMatch

/-- C2: starting from an unlocked user with a zero failure counter, five
consecutive failed attempts (at times `t1 … t5`) leave the account locked
with `lockout_until = t5 + 15min` and counter 5, the fifth attempt logging
`account_locked_after_attempts`; a sixth attempt at `t6 < t5 + 15min` is
rejected with the ceiling of the remaining minutes, logs `account_locked`,
and leaves the row (in particular the counter) unchanged, whatever the
submitted credential. -/
theorem five_failures_lock_account (u : UserRow) (t1 t2 t3 t4 t5 t6 : Nat)
    (p : Bool) (hA : u.isLocked = false) (h0 : u.failedLoginAttempts = 0)
    (h6 : t6 < t5 + lockoutDurationMs) :
    (((((loginStep u t1 false).1 |> fun s => loginStep s t2 false).1
        |> fun s => loginStep s t3 false).1
        |> fun s => loginStep s t4 false).1
        |> fun s => loginStep s t5 false) =
      ({ u with
          failedLoginAttempts := 5
          isLocked := true
          lockoutUntil := some (t5 + lockoutDurationMs) },
        LoginOutcome.rejected, "account_locked_after_attempts") ∧
    loginStep
        { u with
          failedLoginAttempts := 5
          isLocked := true
          lockoutUntil := some (t5 + lockoutDurationMs) } t6 p =
      ({ u with
          failedLoginAttempts := 5
          isLocked := true
          lockoutUntil := some (t5 + lockoutDurationMs) },
        LoginOutcome.lockedOut ((t5 + lockoutDurationMs - t6 + 59999) / 60000),
        "account_locked") := by
  obtain ⟨i, un, ph, em, dn, pc, pa, fla, il, lu, ll⟩ := u
  simp only at hA h0
  subst hA h0
  refine ⟨?_, ?_⟩
  · simp [loginStep, loginActive, handleFailedLogin]
  · simp only [loginStep]
    rw [if_pos h6]

/-- C2 witness: a concrete unlocked user run through five failures and a
sixth attempt one minute after the lock. -/
theorem five_failures_lock_account_witness :
    (⟨1, "steve", "h", "s@e.c", "Steve", none, none, 0, false, none, none⟩ :
        UserRow).isLocked = false ∧
    (⟨1, "steve", "h", "s@e.c", "Steve", none, none, 0, false, none, none⟩ :
        UserRow).failedLoginAttempts = 0 ∧
    (60000 : Nat) < 50 + lockoutDurationMs ∧
    ((((((loginStep
        ⟨1, "steve", "h", "s@e.c", "Steve", none, none, 0, false, none, none⟩
        10 false).1 |> fun s => loginStep s 20 false).1
        |> fun s => loginStep s 30 false).1
        |> fun s => loginStep s 40 false).1
        |> fun s => loginStep s 50 false) =
      (⟨1, "steve", "h", "s@e.c", "Steve", none, none, 5, true,
          some (50 + lockoutDurationMs), none⟩,
        LoginOutcome.rejected, "account_locked_after_attempts") ∧
    loginStep
        ⟨1, "steve", "h", "s@e.c", "Steve", none, none, 5, true,
          some (50 + lockoutDurationMs), none⟩ 60000 true =
      (⟨1, "steve", "h", "s@e.c", "Steve", none, none, 5, true,
          some (50 + lockoutDurationMs), none⟩,
        LoginOutcome.lockedOut ((50 + lockoutDurationMs - 60000 + 59999) / 60000),
        "account_locked")) :=
  ⟨rfl, rfl, by decide,
    five_failures_lock_account
      ⟨1, "steve", "h", "s@e.c", "Steve", none, none, 0, false, none, none⟩
      10 20 30 40 50 60000 true rfl rfl (by decide)⟩

/-- C3: a login attempt for a locked user whose lockout has expired
(`lockoutUntil ≤ now`) behaves exactly like an attempt by the same user with
the lock cleared and the counter zeroed — and its outcome is decided purely
by credential correctness. -/
theorem expired_lockout_clears_and_reevaluates (u : UserRow) (now tEnd : Nat)
    (p : Bool) (hL : u.isLocked = true) (hU : u.lockoutUntil = some tEnd)
    (hT : tEnd ≤ now) :
    loginStep u now p =
      loginStep
        { u with
          isLocked := false
          lockoutUntil := none
          failedLoginAttempts := 0 } now p ∧
    (loginStep u now p).2.1 =
      (if p then LoginOutcome.success else LoginOutcome.rejected) := by
  obtain ⟨i, un, ph, em, dn, pc, pa, fla, il, lu, ll⟩ := u
  simp only at hL hU
  subst hL hU
  have hnot : ¬ now < tEnd := Nat.not_lt.mpr hT
  constructor
  · simp only [loginStep, if_neg hnot]
  · simp only [loginStep, if_neg hnot]
    cases p <;> simp [loginActive, handleFailedLogin]

/-- C3 witness: a locked user whose lockout expired one millisecond before
the attempt. -/
theorem expired_lockout_clears_and_reevaluates_witness :
    (⟨2, "john", "h2", "j@e.c", "John", none, none, 5, true, some 100,
        none⟩ : UserRow).isLocked = true ∧
    (⟨2, "john", "h2", "j@e.c", "John", none, none, 5, true, some 100,
        none⟩ : UserRow).lockoutUntil = some 100 ∧
    (100 : Nat) ≤ 101 ∧
    (loginStep
        ⟨2, "john", "h2", "j@e.c", "John", none, none, 5, true, some 100, none⟩
        101 true =
      loginStep
        ⟨2, "john", "h2", "j@e.c", "John", none, none, 0, false, none, none⟩
        101 true ∧
    (loginStep
        ⟨2, "john", "h2", "j@e.c", "John", none, none, 5, true, some 100, none⟩
        101 true).2.1 =
      (if true then LoginOutcome.success else LoginOutcome.rejected)) :=
  ⟨rfl, rfl, by decide,
    expired_lockout_clears_and_reevaluates
      ⟨2, "john", "h2", "j@e.c", "John", none, none, 5, true, some 100, none⟩
      101 100 true rfl rfl (by decide)⟩

/-- A row of `password_reset_tokens` (`backend/database.js`).  Its schema has as its
only uniqueness constraints are the autoincrement primary key `id` and the
UNIQUE `token` column; `user_id` carries no uniqueness constraint.  The
`used` column defaults to 0 and is never written by any route. -/
structure TokenRow where
  rowId : Nat
  userId : Nat
  token : String
  expiresAt : Nat
  used : Bool
  createdAt : Nat
deriving DecidableEq, Repr

/-- A row of the `sessions` table, keyed by a text id and owned by a user. -/
structure SessionRow where
  sessId : String
  userId : Nat
deriving DecidableEq, Repr

/-- A row of the `chat_messages` table. -/
structure ChatMessageRow where
  msgId : Nat
  userId : Nat
  message : String
  createdAt : Nat
deriving DecidableEq, Repr

/-- The persisted state touched by the reset and chat flows, with the
autoincrement counters for the two tables whose fresh primary keys are
observable. -/
structure Db where
  users : List UserRow
  resetTokens : List TokenRow
  sessions : List SessionRow
  chatMessages : List ChatMessageRow
  nextTokenRowId : Nat
  nextChatMessageId : Nat
deriving DecidableEq, Repr

/-- The JSON body-plus-status observable of the `/forgot-password` route. -/
structure HttpResponse where
  status : Nat
  success : Bool
  message : String
deriving DecidableEq, Repr

/-- Lookup `SELECT * FROM users WHERE email = ?` (first matching row). -/
def findUserByEmail (db : Db) (email : String) : Option UserRow :=
  db.users.find? (fun u => u.email == email)

/-- SQLite `INSERT OR REPLACE INTO password_reset_tokens (user_id, token,
expires_at, created_at) VALUES (?, ?, ?, CURRENT_TIMESTAMP)`: delete any row
that collides on a uniqueness constraint — for this statement only the
UNIQUE `token` column, since the primary key is freshly assigned — then
insert the new row with `used` at its default 0. -/
def insertOrReplaceToken (db : Db) (uid : Nat) (tok : String) (expiry now : Nat) :
    Db :=
  { db with
    resetTokens := db.resetTokens.filter (fun r => r.token != tok) ++
      [⟨db.nextTokenRowId, uid, tok, expiry, false, now⟩]
    nextTokenRowId := db.nextTokenRowId + 1 }

/-- The generic success body of `/forgot-password`. -/
def genericResetMessage : String :=
  "If an account with that email exists, a password reset link has been sent."

/-- The POST /forgot-password route (`routes/auth.js`): reject an empty
email with 400; answer the generic 200 body when no user carries the email;
otherwise store a fresh token expiring in one hour and answer the generic
200 body when the email dispatch succeeds, a 500 body when it fails (the
token write is not rolled back).  `freshToken` stands for the 32 random
bytes of `crypto.randomBytes`, `emailOk` for the dispatch result. -/
def requestReset (db : Db) (email freshToken : String) (now : Nat)
    (emailOk : Bool) : Db × HttpResponse :=
  if email = "" then
    (db, ⟨400, false, "Email is required"⟩)
  else
    match findUserByEmail db email with
    | none => (db, ⟨200, true, genericResetMessage⟩)
    | some user =>
        let db1 := insertOrReplaceToken db user.id freshToken (now + 3600000) now
        if emailOk then
          (db1, ⟨200, true, genericResetMessage⟩)
        else
          (db1, ⟨500, false, "Error sending reset email. Please try again later."⟩)

/-- A token row is active for a user at `now` when it references the user,
is unused and unexpired (spec §3: valid iff `used=false` and
`now < expiresAt`). -/
def activeTokensFor (db : Db) (uid now : Nat) : List TokenRow :=
  db.resetTokens.filter
    (fun r => r.userId == uid && !r.used && decide (now < r.expiresAt))

/-- The observable outcome of the POST /reset-password route: an error
render carrying the token and a single message, the expired/not-found
render, or the success redirect to `/login?reset=success`. -/
inductive ResetOutcome where
  | renderError (token msg : String)
  | renderExpired
  | redirectSuccess
deriving DecidableEq, Repr

/-- The `SELECT prt.*, u.id as user_id, u.email FROM password_reset_tokens
prt JOIN users u ON prt.user_id = u.id WHERE prt.token = ? AND
prt.expires_at > datetime(now)` lookup: the token row must exist, be
unexpired, and join to an existing user.  The `used` column is not
consulted. -/
def findValidResetRecord (db : Db) (tok : String) (now : Nat) :
    Option (TokenRow × UserRow) :=
  match db.resetTokens.find? (fun r => r.token == tok && decide (now < r.expiresAt)) with
  | none => none
  | some r =>
      match db.users.find? (fun u => u.id == r.userId) with
      | none => none
      | some u => some (r, u)

/-- The POST /reset-password route (`routes/auth.js`): require the three
fields, matching passwords and at least 8 characters; look up the joined
valid token record; then store the hashed password for the user of the token,
delete every token row carrying this token and every session row of that
user, and redirect.  `hashFn` stands for the bcrypt `hashPassword`. -/
def resetPassword (db : Db) (tok password confirmPassword : String) (now : Nat)
    (hashFn : String → String) : Db × ResetOutcome :=
  if tok = "" ∨ password = "" ∨ confirmPassword = "" then
    (db, ResetOutcome.renderError tok "All fields are required")
  else if password ≠ confirmPassword then
    (db, ResetOutcome.renderError tok "Passwords do not match")
  else if password.length < 8 then
    (db, ResetOutcome.renderError tok "Password must be at least 8 characters long")
  else
    match findValidResetRecord db tok now with
    | none => (db, ResetOutcome.renderExpired)
    | some (r, _) =>
        ({ db with
            users := db.users.map
              (fun u => if u.id = r.userId then { u with passwordHash := hashFn password } else u)
            resetTokens := db.resetTokens.filter (fun t => t.token != tok)
            sessions := db.sessions.filter (fun s => s.userId != r.userId) },
          ResetOutcome.redirectSuccess)

/-- A one-user database used to evaluate the reset flow at concrete inputs. -/
def resetDemoUser : UserRow :=
  ⟨1, "steve", "oldhash", "a@b.c", "Steve", none, none, 0, false, none, none⟩

/-- Concrete starting database: one user, no tokens, no sessions. -/
def resetDemoDb : Db := ⟨[resetDemoUser], [], [], [], 1, 1⟩

/-- C1: the code keeps both tokens of two consecutive `forgot-password`
requests for the same user active.  After requesting a reset twice for the
email of the lone user (fresh tokens `t1` then `t2`, both dispatches succeeding),
the user owns two token rows that are unused and unexpired, and both tokens
still pass the reset-password validity lookup — the token of the first request
was not invalidated by the second. -/
theorem second_reset_request_keeps_first_token_active :
    (activeTokensFor
        (requestReset (requestReset resetDemoDb "a@b.c" "t1" 0 true).1
          "a@b.c" "t2" 0 true).1 1 0).length = 2 ∧
    (findValidResetRecord
        (requestReset (requestReset resetDemoDb "a@b.c" "t1" 0 true).1
          "a@b.c" "t2" 0 true).1 "t1" 0).isSome = true ∧
    (findValidResetRecord
        (requestReset (requestReset resetDemoDb "a@b.c" "t1" 0 true).1
          "a@b.c" "t2" 0 true).1 "t2" 0).isSome = true := by
  decide

/-- C7: with the email dispatch succeeding, the `/forgot-password` response
for an email that belongs to a user is byte-identical (same status, same
body) to the response for an email that belongs to no user. -/
theorem anti_enumeration_identical_responses (db1 db2 : Db)
    (e1 e2 tok1 tok2 : String) (n1 n2 : Nat) (u : UserRow)
    (h1 : e1 ≠ "") (h2 : e2 ≠ "")
    (hNone : findUserByEmail db1 e1 = none)
    (hSome : findUserByEmail db2 e2 = some u) :
    (requestReset db1 e1 tok1 n1 true).2 = (requestReset db2 e2 tok2 n2 true).2 := by
  simp only [requestReset, if_neg h1, if_neg h2, hNone, hSome, if_true]

/-- C7 witness: the demo database answers identically for an unknown email
and for the email of its registered user. -/
theorem anti_enumeration_identical_responses_witness :
    ("x@y.z" : String) ≠ "" ∧ ("a@b.c" : String) ≠ "" ∧
    findUserByEmail resetDemoDb "x@y.z" = none ∧
    findUserByEmail resetDemoDb "a@b.c" = some resetDemoUser ∧
    (requestReset resetDemoDb "x@y.z" "t9" 7 true).2 =
      (requestReset resetDemoDb "a@b.c" "t8" 7 true).2 :=
  ⟨by decide, by decide, by decide, by decide,
    anti_enumeration_identical_responses resetDemoDb resetDemoDb
      "x@y.z" "a@b.c" "t9" "t8" 7 7 resetDemoUser
      (by decide) (by decide) (by decide) (by decide)⟩

/-- Deleting every row carrying a token from `password_reset_tokens` makes
the validity lookup on that token fail. -/
theorem find_token_after_delete (l : List TokenRow) (tok : String) (now : Nat) :
    (l.filter (fun t => t.token != tok)).find?
      (fun r => r.token == tok && decide (now < r.expiresAt)) = none := by
  apply List.find?_eq_none.mpr
  intro x hx
  have hmem := List.mem_filter.mp hx
  have hne : x.token ≠ tok := by
    have := hmem.2
    simpa [bne_iff_ne] using this
  simp [hne]

/-- When the raw token lookup fails, the joined validity lookup fails. -/
theorem findValidResetRecord_eq_none (db : Db) (tok : String) (now : Nat)
    (h : db.resetTokens.find?
      (fun r => r.token == tok && decide (now < r.expiresAt)) = none) :
    findValidResetRecord db tok now = none := by
  simp [findValidResetRecord, h]

/-- With well-formed fields, a failing validity lookup yields the
expired/not-found render. -/
theorem resetPassword_expired_of_no_record (db : Db) (tok p c : String)
    (now : Nat) (hashFn : String → String)
    (hcond : ¬(tok = "" ∨ p = "" ∨ c = "")) (hne : ¬(p ≠ c))
    (hl : ¬(p.length < 8))
    (hfind : findValidResetRecord db tok now = none) :
    (resetPassword db tok p c now hashFn).2 = ResetOutcome.renderExpired := by
  simp only [resetPassword, if_neg hcond, if_neg hne, if_neg hl, hfind]

/-- C4: consuming a valid reset token stores the hashed new password on the
user of the token, removes every row carrying the token, removes every session
row of that user, and a second consumption of the same token on the
resulting state answers the expired/not-found render. -/
theorem consume_token_success (db : Db) (tok p c : String) (now : Nat)
    (hashFn : String → String) (r : TokenRow) (u : UserRow)
    (ht : tok ≠ "") (hp : p ≠ "") (hc : c ≠ "") (hpc : p = c)
    (hlen : 8 ≤ p.length)
    (hfind : findValidResetRecord db tok now = some (r, u)) :
    (resetPassword db tok p c now hashFn).2 = ResetOutcome.redirectSuccess ∧
    (resetPassword db tok p c now hashFn).1.users =
      db.users.map (fun w =>
        if w.id = r.userId then { w with passwordHash := hashFn p } else w) ∧
    (resetPassword db tok p c now hashFn).1.resetTokens =
      db.resetTokens.filter (fun t => t.token != tok) ∧
    (resetPassword db tok p c now hashFn).1.sessions =
      db.sessions.filter (fun s => s.userId != r.userId) ∧
    (resetPassword (resetPassword db tok p c now hashFn).1 tok p c now
        hashFn).2 = ResetOutcome.renderExpired := by
  have hcond : ¬(tok = "" ∨ p = "" ∨ c = "") := by simp [ht, hp, hc]
  have hne : ¬(p ≠ c) := by simp [hpc]
  have hl : ¬(p.length < 8) := Nat.not_lt.mpr hlen
  have hmain : resetPassword db tok p c now hashFn =
      ({ db with
          users := db.users.map (fun w =>
            if w.id = r.userId then { w with passwordHash := hashFn p } else w)
          resetTokens := db.resetTokens.filter (fun t => t.token != tok)
          sessions := db.sessions.filter (fun s => s.userId != r.userId) },
        ResetOutcome.redirectSuccess) := by
    simp only [resetPassword, if_neg hcond, if_neg hne, if_neg hl, hfind]
  have hsecond : findValidResetRecord (resetPassword db tok p c now hashFn).1
      tok now = none := by
    rw [hmain]
    exact findValidResetRecord_eq_none _ _ _ (find_token_after_delete _ _ _)
  exact ⟨by rw [hmain], by rw [hmain], by rw [hmain], by rw [hmain],
    resetPassword_expired_of_no_record _ _ _ _ _ _ hcond hne hl hsecond⟩

/-- C4 witness: the demo database extended with one valid token, consumed
with a fresh 8-character password. -/
theorem consume_token_success_witness :
    ("tok1" : String) ≠ "" ∧ ("newpass1" : String) ≠ "" ∧
    ("newpass1" : String) ≠ "" ∧ ("newpass1" : String) = "newpass1" ∧
    8 ≤ ("newpass1" : String).length ∧
    findValidResetRecord
        ⟨[resetDemoUser], [⟨1, 1, "tok1", 3600000, false, 0⟩],
          [⟨"sessA", 1⟩, ⟨"sessB", 2⟩], [], 2, 1⟩ "tok1" 0 =
      some (⟨1, 1, "tok1", 3600000, false, 0⟩, resetDemoUser) ∧
    ((resetPassword
        ⟨[resetDemoUser], [⟨1, 1, "tok1", 3600000, false, 0⟩],
          [⟨"sessA", 1⟩, ⟨"sessB", 2⟩], [], 2, 1⟩
        "tok1" "newpass1" "newpass1" 0 (fun s => String.append s "#h")).2 =
      ResetOutcome.redirectSuccess ∧
    (resetPassword
        ⟨[resetDemoUser], [⟨1, 1, "tok1", 3600000, false, 0⟩],
          [⟨"sessA", 1⟩, ⟨"sessB", 2⟩], [], 2, 1⟩
        "tok1" "newpass1" "newpass1" 0 (fun s => String.append s "#h")).1.users =
      [resetDemoUser].map (fun w =>
        if w.id = (1 : Nat) then { w with passwordHash := String.append "newpass1" "#h" } else w) ∧
    (resetPassword
        ⟨[resetDemoUser], [⟨1, 1, "tok1", 3600000, false, 0⟩],
          [⟨"sessA", 1⟩, ⟨"sessB", 2⟩], [], 2, 1⟩
        "tok1" "newpass1" "newpass1" 0 (fun s => String.append s "#h")).1.resetTokens =
      [(⟨1, 1, "tok1", 3600000, false, 0⟩ : TokenRow)].filter (fun t => t.token != "tok1") ∧
    (resetPassword
        ⟨[resetDemoUser], [⟨1, 1, "tok1", 3600000, false, 0⟩],
          [⟨"sessA", 1⟩, ⟨"sessB", 2⟩], [], 2, 1⟩
        "tok1" "newpass1" "newpass1" 0 (fun s => String.append s "#h")).1.sessions =
      [(⟨"sessA", 1⟩ : SessionRow), ⟨"sessB", 2⟩].filter (fun s => s.userId != (1 : Nat)) ∧
    (resetPassword
        (resetPassword
          ⟨[resetDemoUser], [⟨1, 1, "tok1", 3600000, false, 0⟩],
            [⟨"sessA", 1⟩, ⟨"sessB", 2⟩], [], 2, 1⟩
          "tok1" "newpass1" "newpass1" 0 (fun s => String.append s "#h")).1
        "tok1" "newpass1" "newpass1" 0 (fun s => String.append s "#h")).2 =
      ResetOutcome.renderExpired) :=
  ⟨by decide, by decide, by decide, rfl, by decide, by decide,
    consume_token_success
      ⟨[resetDemoUser], [⟨1, 1, "tok1", 3600000, false, 0⟩],
        [⟨"sessA", 1⟩, ⟨"sessB", 2⟩], [], 2, 1⟩
      "tok1" "newpass1" "newpass1" 0 (fun s => String.append s "#h")
      ⟨1, 1, "tok1", 3600000, false, 0⟩ resetDemoUser
      (by decide) (by decide) (by decide) rfl (by decide) (by decide)⟩

/-- C10: every request `/reset-password` rejects — missing field, password
mismatch, password shorter than 8 characters, or no valid token record —
leaves the database untouched: user rows, token rows and session rows are
exactly those of the starting state. -/
theorem reset_failure_preserves_state (db : Db) (tok p c : String) (now : Nat)
    (hashFn : String → String)
    (hfail : (resetPassword db tok p c now hashFn).2 ≠
      ResetOutcome.redirectSuccess) :
    (resetPassword db tok p c now hashFn).1 = db := by
  by_cases h1 : tok = "" ∨ p = "" ∨ c = ""
  · simp [resetPassword, h1]
  · by_cases h2 : p ≠ c
    · simp [resetPassword, h1, h2]
    · by_cases h3 : p.length < 8
      · simp [resetPassword, h1, h2, h3]
      · rcases hf : findValidResetRecord db tok now with _ | ⟨r, u⟩
        · simp [resetPassword, h1, h2, h3, hf]
        · exact absurd
            (by simp [resetPassword, h1, h2, h3, hf]) hfail

/-- C10 witness: a mismatching confirmation leaves the demo database with
its token and sessions intact. -/
theorem reset_failure_preserves_state_witness :
    (resetPassword
        ⟨[resetDemoUser], [⟨1, 1, "tok1", 3600000, false, 0⟩],
          [⟨"sessA", 1⟩], [], 2, 1⟩
        "tok1" "newpass1" "otherpw9" 0 (fun s => s)).2 ≠
      ResetOutcome.redirectSuccess ∧
    (resetPassword
        ⟨[resetDemoUser], [⟨1, 1, "tok1", 3600000, false, 0⟩],
          [⟨"sessA", 1⟩], [], 2, 1⟩
        "tok1" "newpass1" "otherpw9" 0 (fun s => s)).1 =
      ⟨[resetDemoUser], [⟨1, 1, "tok1", 3600000, false, 0⟩],
        [⟨"sessA", 1⟩], [], 2, 1⟩ :=
  ⟨by decide,
    reset_failure_preserves_state
      ⟨[resetDemoUser], [⟨1, 1, "tok1", 3600000, false, 0⟩],
        [⟨"sessA", 1⟩], [], 2, 1⟩
      "tok1" "newpass1" "otherpw9" 0 (fun s => s) (by decide)⟩

/-- Modelled from the spec: the password-strength policy of
`validatePassword` in `backend/modules/password-utils.js`, a module whose
source is not in the repository snapshot (only its callers are).  Spec §7
and the repository README state the rules — minimum length 8, at least one
uppercase letter, one lowercase letter, one digit and one special
character — with each unmet rule reported in a list of specific errors.
Returns the validity flag together with that list. -/
def validatePassword (p : String) : Bool × List String :=
  let errs : List String :=
    (if p.length < 8 then ["Password must be at least 8 characters long"]
      else []) ++
    (if p.toList.any Char.isUpper then []
      else ["Password must contain an uppercase letter"]) ++
    (if p.toList.any Char.isLower then []
      else ["Password must contain a lowercase letter"]) ++
    (if p.toList.any Char.isDigit then []
      else ["Password must contain a digit"]) ++
    (if p.toList.any (fun ch => !ch.isAlphanum) then []
      else ["Password must contain a special character"])
  (errs.isEmpty, errs)

/-- The demo database extended with one valid reset token for the lone
user. -/
def policyDemoDb : Db :=
  ⟨[resetDemoUser], [⟨1, 1, "tok1", 3600000, false, 0⟩], [], [], 2, 1⟩

/-- C5 counterexample: `"aaaaaaaa"` violates three rules of the §7 policy
(no uppercase letter, no digit, no special character), yet
`/reset-password` accepts it against a valid token and completes the
reset — the route never invokes the policy beyond the length check. -/
theorem reset_password_accepts_policy_violating_password :
    (validatePassword "aaaaaaaa").1 = false ∧
    (resetPassword policyDemoDb "tok1" "aaaaaaaa" "aaaaaaaa" 0
        (fun s => String.append s "#h")).2 = ResetOutcome.redirectSuccess := by
  decide

/-- C5 amended: with a valid token and all three fields present and
matching, `/reset-password` checks only the length rule of the §7 policy:
it succeeds exactly when the password has at least 8 characters, and a
shorter password is rejected with the single fixed message rather than a
list of unmet rules. -/
theorem reset_password_checks_length_only (db : Db) (tok p c : String)
    (now : Nat) (hashFn : String → String) (r : TokenRow) (u : UserRow)
    (ht : tok ≠ "") (hp : p ≠ "") (hc : c ≠ "") (hpc : p = c)
    (hfind : findValidResetRecord db tok now = some (r, u)) :
    ((resetPassword db tok p c now hashFn).2 = ResetOutcome.redirectSuccess ↔
      8 ≤ p.length) ∧
    (p.length < 8 → (resetPassword db tok p c now hashFn).2 =
      ResetOutcome.renderError tok
        "Password must be at least 8 characters long") := by
  have hcond : ¬(tok = "" ∨ p = "" ∨ c = "") := by simp [ht, hp, hc]
  have hne : ¬(p ≠ c) := by simp [hpc]
  by_cases hl : p.length < 8
  · constructor
    · constructor
      · intro hsucc
        exact absurd hsucc
          (by simp [resetPassword, if_neg hcond, if_neg hne, hl])
      · intro hge
        exact absurd hl (Nat.not_lt.mpr hge)
    · intro _
      simp [resetPassword, if_neg hcond, if_neg hne, hl]
  · constructor
    · constructor
      · intro _
        exact Nat.not_lt.mp hl
      · intro _
        simp only [resetPassword, if_neg hcond, if_neg hne, if_neg hl, hfind]
    · intro hlt
      exact absurd hlt hl

/-- C5 amended witness: the valid-token demo database accepts the
8-character password and rejects a 7-character one with the single length
message. -/
theorem reset_password_checks_length_only_witness :
    ("tok1" : String) ≠ "" ∧ ("short12" : String) ≠ "" ∧
    ("short12" : String) ≠ "" ∧ ("short12" : String) = "short12" ∧
    findValidResetRecord policyDemoDb "tok1" 0 =
      some (⟨1, 1, "tok1", 3600000, false, 0⟩, resetDemoUser) ∧
    (((resetPassword policyDemoDb "tok1" "short12" "short12" 0
          (fun s => s)).2 = ResetOutcome.redirectSuccess ↔
        8 ≤ ("short12" : String).length) ∧
      (("short12" : String).length < 8 →
        (resetPassword policyDemoDb "tok1" "short12" "short12" 0
            (fun s => s)).2 =
          ResetOutcome.renderError "tok1"
            "Password must be at least 8 characters long")) :=
  ⟨by decide, by decide, by decide, rfl, by decide,
    reset_password_checks_length_only policyDemoDb "tok1" "short12" "short12"
      0 (fun s => s) ⟨1, 1, "tok1", 3600000, false, 0⟩ resetDemoUser
      (by decide) (by decide) (by decide) rfl (by decide)⟩

/-- JavaScript `a || b` for strings: an empty (or absent, conflated with
empty) string is falsy and falls back to `b`. -/
def jsOrStr (a b : String) : String := if a = "" then b else a

/-- JavaScript `a || b` where `a` is a nullable string column: `null` and
`""` are both falsy. -/
def jsOrOpt (a : Option String) (b : String) : String :=
  match a with
  | none => b
  | some s => if s = "" then b else s

/-- The slice of the ad-hoc `userData` object stored on the socket by the
`join-chat` handler that the `disconnect` handler reads
(`backend/server.js`). -/
structure ChatUserData where
  username : String
  displayName : String
deriving DecidableEq, Repr

/-- The payload of an outbound `user-left` event. -/
structure LeftEvent where
  username : String
  timestamp : Nat
deriving DecidableEq, Repr

/-- The `disconnect` handler (`backend/server.js`): when the socket carries
a `userData` registration, broadcast one `user-left` with the display name
(falling back to the username); otherwise do nothing.  The handler never
clears or otherwise mutates the registration, so the socket state is
returned unchanged. -/
def disconnectHandler (userData : Option ChatUserData) (now : Nat) :
    Option ChatUserData × List LeftEvent :=
  match userData with
  | some ud => (some ud, [⟨jsOrStr ud.displayName ud.username, now⟩])
  | none => (none, [])

/-- Two consecutive invocations of the `disconnect` handler for the same
connection, threading the socket state, with the emitted events
concatenated. -/
def disconnectTwice (userData : Option ChatUserData) (t1 t2 : Nat) :
    List LeftEvent :=
  let r1 := disconnectHandler userData t1
  let r2 := disconnectHandler r1.1 t2
  r1.2 ++ r2.2

/-- C6 counterexample: for a connection that joined (identity registered),
invoking the disconnect handler twice emits two `user-left` events, not at
most one — the handler never clears the registration. -/
theorem duplicate_disconnect_emits_twice :
    (disconnectTwice (some ⟨"steve", "Steve"⟩) 0 1).length = 2 := by
  decide

/-- C6 amended: a connection that never joined emits no `user-left` under
any number of disconnect invocations, but for a joined connection every
invocation emits exactly one `user-left` — duplicate disconnect
notifications therefore duplicate the event rather than being idempotent. -/
theorem disconnect_events_per_invocation (ud : ChatUserData) (t1 t2 : Nat) :
    disconnectTwice none t1 t2 = [] ∧
    disconnectTwice (some ud) t1 t2 =
      [⟨jsOrStr ud.displayName ud.username, t1⟩,
        ⟨jsOrStr ud.displayName ud.username, t2⟩] := by
  exact ⟨rfl, rfl⟩

/-- The denormalized broadcast payload of `new-message`/`message-sent`
(`backend/server.js`). -/
structure MessagePayload where
  id : Nat
  message : String
  userId : Nat
  displayName : String
  username : String
  profileColor : String
  profileAvatar : String
  createdAt : Nat
deriving DecidableEq, Repr

/-- An outbound chat emission: the room broadcast `socket.broadcast.to` reaches
every room member except the sender; `socket.emit` reaches only the
sender. -/
inductive ChatEmit where
  | toOthers (eventName : String) (payload : MessagePayload)
  | toSender (eventName : String) (payload : MessagePayload)
deriving DecidableEq, Repr

/-- JavaScript falsiness of an optional string field: absent or `""`. -/
def jsFalsyStr (s : Option String) : Bool :=
  match s with
  | none => true
  | some v => v == ""

/-- JavaScript falsiness of an optional numeric field: absent or `0`. -/
def jsFalsyNat (n : Option Nat) : Bool :=
  match n with
  | none => true
  | some v => v == 0

/-- The `messageData` object built by the `chat-message` handler: fresh row
id, the raw message, the supplied user id, and the display fields of the sender
with their falsy fallbacks. -/
def chatMessagePayload (user : UserRow) (uid newId : Nat) (msg : String)
    (now : Nat) : MessagePayload :=
  { id := newId
    message := msg
    userId := uid
    displayName := jsOrStr user.displayName user.username
    username := user.username
    profileColor := jsOrOpt user.profileColor "#000000"
    profileAvatar := jsOrOpt user.profileAvatar "👤"
    createdAt := now }

/-- The `chat-message` handler (`backend/server.js`): silently return when
the message or the user id is falsy, or when no user row carries the id;
otherwise persist a `chat_messages` row and emit `new-message` to every
other room member and `message-sent` (with the same payload object) to the
sender.  No error is ever surfaced to the sender: failures are caught and
logged. -/
def chatMessage (db : Db) (message : Option String) (userId : Option Nat)
    (now : Nat) : Db × List ChatEmit :=
  if jsFalsyStr message || jsFalsyNat userId then (db, [])
  else
    let uid := userId.getD 0
    let msg := message.getD ""
    match db.users.find? (fun w => w.id == uid) with
    | none => (db, [])
    | some user =>
        let newId := db.nextChatMessageId
        let pd := chatMessagePayload user uid newId msg now
        ({ db with
            chatMessages := db.chatMessages ++ [⟨newId, uid, msg, now⟩]
            nextChatMessageId := newId + 1 },
          [ChatEmit.toOthers "new-message" pd,
            ChatEmit.toSender "message-sent" pd])

/-- Whether an emission delivers `new-message` to the own connection of the
connection. -/
def senderNewMessage : ChatEmit → Bool
  | ChatEmit.toSender n _ => n == "new-message"
  | ChatEmit.toOthers _ _ => false

/-- Whether an emission delivers `message-sent` to the sender. -/
def senderMessageSent : ChatEmit → Bool
  | ChatEmit.toSender n _ => n == "message-sent"
  | ChatEmit.toOthers _ _ => false

/-- C8: a valid chat message produces exactly the two emissions — a
`new-message` broadcast that excludes the connection of the sender and one
`message-sent` to the sender — and both carry the identical payload; in
particular no emission delivers `new-message` to the sender and the sender
receives exactly one `message-sent`. -/
theorem chat_sender_gets_one_confirmation (db : Db) (m : Option String)
    (uidO : Option Nat) (now : Nat) (user : UserRow)
    (hm : jsFalsyStr m = false) (hu : jsFalsyNat uidO = false)
    (hfind : db.users.find? (fun w => w.id == uidO.getD 0) = some user) :
    (chatMessage db m uidO now).2 =
      [ChatEmit.toOthers "new-message"
        (chatMessagePayload user (uidO.getD 0) db.nextChatMessageId
          (m.getD "") now),
        ChatEmit.toSender "message-sent"
        (chatMessagePayload user (uidO.getD 0) db.nextChatMessageId
          (m.getD "") now)] ∧
    ((chatMessage db m uidO now).2.filter senderNewMessage).length = 0 ∧
    ((chatMessage db m uidO now).2.filter senderMessageSent).length = 1 := by
  have hmu : (jsFalsyStr m || jsFalsyNat uidO) = false := by
    simp [hm, hu]
  refine ⟨?_, ?_, ?_⟩ <;>
    simp [chatMessage, hmu, hfind, senderNewMessage, senderMessageSent,
      List.filter]

/-- C8 witness: the demo user sends `"hi"` over the demo database. -/
theorem chat_sender_gets_one_confirmation_witness :
    jsFalsyStr (some "hi") = false ∧ jsFalsyNat (some 1) = false ∧
    resetDemoDb.users.find? (fun w => w.id == (some 1 : Option Nat).getD 0) =
      some resetDemoUser ∧
    ((chatMessage resetDemoDb (some "hi") (some 1) 42).2 =
      [ChatEmit.toOthers "new-message"
        (chatMessagePayload resetDemoUser ((some 1 : Option Nat).getD 0)
          resetDemoDb.nextChatMessageId ((some "hi" : Option String).getD "") 42),
        ChatEmit.toSender "message-sent"
        (chatMessagePayload resetDemoUser ((some 1 : Option Nat).getD 0)
          resetDemoDb.nextChatMessageId ((some "hi" : Option String).getD "") 42)] ∧
    ((chatMessage resetDemoDb (some "hi") (some 1) 42).2.filter
        senderNewMessage).length = 0 ∧
    ((chatMessage resetDemoDb (some "hi") (some 1) 42).2.filter
        senderMessageSent).length = 1) :=
  ⟨by decide, by decide, by decide,
    chat_sender_gets_one_confirmation resetDemoDb (some "hi") (some 1) 42
      resetDemoUser (by decide) (by decide) (by decide)⟩

/-- C9: a `chat-message` event whose message text or user id is missing or
falsy, or whose user id matches no stored user, has no effect whatsoever:
the database (in particular `chat_messages`) is unchanged and nothing is
emitted to any connection — the handler has no error channel back to the
sender. -/
theorem invalid_chat_message_dropped (db : Db) (m : Option String)
    (uidO : Option Nat) (now : Nat)
    (h : jsFalsyStr m = true ∨ jsFalsyNat uidO = true ∨
      db.users.find? (fun w => w.id == uidO.getD 0) = none) :
    chatMessage db m uidO now = (db, []) := by
  rcases h with h | h | h
  · simp [chatMessage, h]
  · simp [chatMessage, h]
  · by_cases hm : jsFalsyStr m
    · simp [chatMessage, hm]
    · by_cases hu : jsFalsyNat uidO
      · simp [chatMessage, hu]
      · simp [chatMessage, hm, hu, h]

/-- C9 witness: an empty message, a missing user id, and an unknown user id
are each dropped without effect on the demo database. -/
theorem invalid_chat_message_dropped_witness :
    (jsFalsyStr (some "") = true ∨ jsFalsyNat (some 1) = true ∨
      resetDemoDb.users.find? (fun w => w.id == (some 1 : Option Nat).getD 0) =
        none) ∧
    chatMessage resetDemoDb (some "") (some 1) 42 = (resetDemoDb, []) :=
  ⟨Or.inl (by decide),
    invalid_chat_message_dropped resetDemoDb (some "") (some 1) 42
      (Or.inl (by decide))⟩
